import Mathlib

/-!
Verification development for the Real-Time-Data-Checker repository.

The repository consists of three Python files:
  - TAQ_Checker_ShenzhenReal.py : session-aware retrieval against the SZSE
    report endpoints (class SZSEOfficialDataFetcher),
  - Shenzhen_Real_Time_Final.py and Real_Time_ShenZhen2.py : delimited
    real-time quote feed clients (class SZSEDataFetcher).

This file shallowly embeds the core logic: JSON values are an inductive
type, Python floats are modelled as rationals, fallible code returns
Option, and the ambient clock of the session resolver is passed as an
explicit parameter.  Network fetches are abstracted as oracle arguments,
and the orchestrator additionally reports how many fetches it issued.
-/

/-- A JSON-like value as produced by `json.loads` / present in the
delimited feed helpers.  Numbers are modelled as rationals. -/
inductive JValue where
  | null : JValue
  | str : String → JValue
  | num : ℚ → JValue
  | arr : List JValue → JValue
  | obj : List (String × JValue) → JValue

/-- First value bound to key `k` in a dict, mirroring Python `d[k]`
presence via `Option`. -/
def jlookup (fs : List (String × JValue)) (k : String) : Option JValue :=
  (fs.find? (fun kv => kv.1 == k)).map (fun kv => kv.2)

/-- Python `k in d` for a dict. -/
def hasKey (fs : List (String × JValue)) (k : String) : Bool :=
  fs.any (fun kv => kv.1 == k)

/-- Python `d.get(k, default)`. -/
def lookupDefault (fs : List (String × JValue)) (k : String) (default : JValue) : JValue :=
  match jlookup fs k with
  | some v => v
  | none => default

/-- Python truthiness of a JSON value (`if value:`). -/
def truthy : JValue → Bool
  | .null => false
  | .str s => s != ""
  | .num q => q != 0
  | .arr xs => !xs.isEmpty
  | .obj fs => !fs.isEmpty

/-- Whether `pat` matches a leading segment of `cs` (character list). -/
def leadMatch : List Char → List Char → Bool
  | [], _ => true
  | _ :: _, [] => false
  | p :: ps, c :: cs => p == c && leadMatch ps cs

/-- Whether `pat` occurs contiguously anywhere in `cs`. -/
def subScan (pat : List Char) : List Char → Bool
  | [] => leadMatch pat []
  | c :: cs => leadMatch pat (c :: cs) || subScan pat cs

/-- Python `pat in s` for strings (substring containment). -/
def containsSub (s pat : String) : Bool :=
  subScan pat.toList s.toList

/-- Python `s.strip()`: remove leading and trailing whitespace. -/
def pyStrip (s : String) : String :=
  String.mk (((s.toList.dropWhile Char.isWhitespace).reverse.dropWhile Char.isWhitespace).reverse)

/-- Numeric value of a digit list (most significant first). -/
def digitsVal (l : List Char) : Nat :=
  l.foldl (fun a c => a * 10 + (c.toNat - 48)) 0

/-- Unsigned part of Python `float(str)`: digits with an optional single
decimal point, at least one digit overall.  (Exponent and the inf/nan
literals are outside the inputs this repository feeds to `float`.) -/
def parseUnsigned? (cs : List Char) : Option ℚ :=
  let ip := cs.takeWhile (fun c => c.isDigit)
  let rest := cs.drop ip.length
  match rest with
  | [] => if ip.isEmpty then none else some ((digitsVal ip : ℚ))
  | '.' :: frac =>
      if frac.all (fun c => c.isDigit) && (!ip.isEmpty || !frac.isEmpty) then
        some ((digitsVal ip : ℚ) + (digitsVal frac : ℚ) / (10 : ℚ) ^ frac.length)
      else none
  | _ => none

/-- Python `float(str)` on an already-stripped string: optional sign then
an unsigned decimal; `none` models the `ValueError`. -/
def parseFloat? (s : String) : Option ℚ :=
  match s.toList with
  | '+' :: rest => parseUnsigned? rest
  | '-' :: rest => (parseUnsigned? rest).map (fun q => -q)
  | cs => parseUnsigned? cs

/-- Python `int(str)`: surrounding whitespace stripped, optional sign,
then digits only; `none` models the `ValueError`. -/
def parseInt? (s : String) : Option ℤ :=
  match (pyStrip s).toList with
  | '+' :: rest => if !rest.isEmpty && rest.all (fun c => c.isDigit) then some ((digitsVal rest : ℤ)) else none
  | '-' :: rest => if !rest.isEmpty && rest.all (fun c => c.isDigit) then some (-(digitsVal rest : ℤ)) else none
  | cs => if !cs.isEmpty && cs.all (fun c => c.isDigit) then some ((digitsVal cs : ℤ)) else none

/-- Python `s.replace(",", "")`. -/
def stripCommas (s : String) : String :=
  String.mk (s.toList.filter (fun c => c != ','))

/-- Python `s.split(sep)` for a single-character separator, on character
lists: splitting the empty string gives one empty group, and adjacent
separators give empty groups. -/
def splitChar (sep : Char) : List Char → List (List Char)
  | [] => [[]]
  | c :: cs =>
    if c == sep then [] :: splitChar sep cs
    else
      match splitChar sep cs with
      | [] => [[c]]
      | g :: gs => (c :: g) :: gs

/-- Calendar date, proleptic Gregorian, as handled by `datetime.date`. -/
structure Date where
  year : Nat
  month : Nat
  day : Nat
deriving DecidableEq

/-- Gregorian leap-year test. -/
def isLeap (y : Nat) : Bool :=
  y % 4 == 0 && (y % 100 != 0 || y % 400 == 0)

/-- Number of days in month `m` of year `y`. -/
def daysInMonth (y m : Nat) : Nat :=
  if m == 2 then (if isLeap y then 29 else 28)
  else if m == 4 || m == 6 || m == 9 || m == 11 then 30
  else 31

/-- Days in year `y` before the first of month `m`. -/
def daysBeforeMonth (y m : Nat) : Nat :=
  ((List.range (m - 1)).map (fun i => daysInMonth y (i + 1))).sum

/-- Rata-die day number (day 1 = 0001-01-01). -/
def rataDie (d : Date) : Nat :=
  365 * (d.year - 1) + (d.year - 1) / 4 - (d.year - 1) / 100 + (d.year - 1) / 400
    + daysBeforeMonth d.year d.month + d.day

/-- Python `date.weekday()`: Monday = 0 ... Sunday = 6. -/
def weekday (d : Date) : Nat :=
  (rataDie d + 6) % 7

/-- All characters are digits and the group is non-empty. -/
def isDigits (l : List Char) : Bool :=
  !l.isEmpty && l.all (fun c => c.isDigit)

/-- `datetime.strptime(s, "%Y-%m-%d").date()`: four-digit year, one- or
two-digit month and day, all ranges validated; `none` models the
`ValueError`. -/
def parseDate (s : String) : Option Date :=
  match splitChar '-' s.toList with
  | [ys, ms, ds] =>
    if decide (ys.length = 4) && isDigits ys && isDigits ms && decide (ms.length ≤ 2)
        && isDigits ds && decide (ds.length ≤ 2) then
      let y := digitsVal ys
      let m := digitsVal ms
      let d := digitsVal ds
      if decide (1 ≤ y ∧ 1 ≤ m ∧ m ≤ 12 ∧ 1 ≤ d ∧ d ≤ daysInMonth y m) then
        some ⟨y, m, d⟩
      else none
    else none
  | _ => none

/-- Strict date order (`target_dt > today` comparisons). -/
def Date.lt (a b : Date) : Prop :=
  a.year < b.year ∨ (a.year = b.year ∧
    (a.month < b.month ∨ (a.month = b.month ∧ a.day < b.day)))

instance (a b : Date) : Decidable (Date.lt a b) := by
  unfold Date.lt
  infer_instance

/-- `strftime("%Y-%m-%d")` zero-padded numeral. -/
def padNum (n w : Nat) : String :=
  let s := toString n
  String.mk (List.replicate (w - s.length) '0') ++ s

/-- `date.strftime("%Y-%m-%d")`. -/
def formatDate (d : Date) : String :=
  padNum d.year 4 ++ "-" ++ padNum d.month 2 ++ "-" ++ padNum d.day 2

/-- The ambient clock consumed by the session resolver:
`today` is the local date (`date.today()` / `datetime.now()`), while
`bjDate`/`bjTime` are the Beijing-timezone date and seconds-past-midnight
(`datetime.now(timezone(timedelta(hours=8)))`). -/
structure Clock where
  today : Date
  bjDate : Date
  bjTime : ℚ

/-- `SZSEOfficialDataFetcher.is_weekend`: parse the date string and test
`weekday() >= 5`; the `except ValueError` branch returns `False`. -/
def is_weekend (target_date : String) : Bool :=
  match parseDate target_date with
  | some d => decide (5 ≤ weekday d)
  | none => false

/-- `SZSEOfficialDataFetcher.is_market_open_now`: closed on Beijing
weekends, otherwise open exactly inside 09:30-11:30 or 13:00-15:00
Beijing time, bounds inclusive.  (The `except` fail-open branch guards
clock failures, which the explicit-clock embedding cannot exhibit.) -/
def is_market_open_now (c : Clock) : Bool :=
  if 5 ≤ weekday c.bjDate then false
  else
    decide (34200 ≤ c.bjTime ∧ c.bjTime ≤ 41400)
      || decide (46800 ≤ c.bjTime ∧ c.bjTime ≤ 54000)

/-- Retrieval mode produced by `get_date_mode` (first tuple component). -/
inductive DateMode where
  | current
  | market_closed_now
  | market_closed_weekend
  | historical
  | invalid
deriving DecidableEq

/-- `SZSEOfficialDataFetcher.get_date_mode`: decide between current,
historical, market-closed and invalid retrieval, returning the mode and
the resolved date string. -/
def get_date_mode (c : Clock) (target_date : Option String) : DateMode × String :=
  match target_date with
  | none =>
    if !is_market_open_now c then (.market_closed_now, formatDate c.today)
    else (.current, formatDate c.today)
  | some td =>
    match parseDate td with
    | none => (.invalid, td)
    | some target_dt =>
      if Date.lt c.today target_dt then (.invalid, td)
      else if target_dt = c.today then
        (if !is_market_open_now c then (.market_closed_now, td) else (.current, td))
      else
        (if is_weekend td then (.market_closed_weekend, td) else (.historical, td))

/-- Field conversion `float(parts[i]) if parts[i] else 0` of the
delimited decoder: empty string is zero, otherwise a strict float parse
whose failure (`none`) aborts the whole decode. -/
def floatField (s : String) : Option ℚ :=
  if s == "" then some 0 else parseFloat? (pyStrip s)

/-- Field conversion `int(parts[i]) if parts[i] else 0` of the delimited
decoder. -/
def intField (s : String) : Option ℤ :=
  if s == "" then some 0 else parseInt? s

/-- Match verdict of `SZSEDataFetcher.get_realtime_data`
(Shenzhen_Real_Time_Final.py lines 83-91). -/
def match_status_bang (o : ℚ) (e : Option ℚ) : String :=
  match e with
  | some ev => if |o - ev| ≤ (1 / 100 : ℚ) then "MATCHED!" else "NOT MATCHED!"
  | none => "NO EXPECTED PRICE"

/-- Decoded delimited quote (the `stock_data` dict of
`SZSEDataFetcher.get_realtime_data`). -/
structure StockDelim where
  sid : String
  symbol : String
  name : String
  code : String
  current_price : ℚ
  yesterday_close : ℚ
  open_price : ℚ
  open_equ_prices : Option ℚ
  volume : ℤ
  volume_shares : ℤ
  turnover : ℚ
  bid1_price : ℚ
  bid1_volume : ℤ
  ask1_price : ℚ
  ask1_volume : ℤ
  high : ℚ
  low : ℚ
  change : ℚ
  change_percent : ℚ
  timestamp : String
  last_update : String
  match_status : String

/-- Positional decode of the tilde-split field list (lines 50-93 of
Shenzhen_Real_Time_Final.py), in source evaluation order: any field
conversion failure aborts the whole decode. -/
def parseParts (symbol sid : String) (equ_open : Option ℚ) (last_update : String)
    (parts : List String) : Option StockDelim :=
  if parts.length < 30 then none
  else
    (floatField (parts.getD 3 "")).bind fun cp =>
    (floatField (parts.getD 4 "")).bind fun yc =>
    (floatField (parts.getD 5 "")).bind fun op =>
    (intField (parts.getD 6 "")).bind fun vol =>
    (if parts.length > 37 then floatField (parts.getD 37 "") else some 0).bind fun turn =>
    (floatField (parts.getD 9 "")).bind fun b1p =>
    (intField (parts.getD 10 "")).bind fun b1v =>
    (floatField (parts.getD 19 "")).bind fun a1p =>
    (intField (parts.getD 20 "")).bind fun a1v =>
    (if parts.length > 33 then floatField (parts.getD 33 "") else some 0).bind fun hi =>
    (if parts.length > 34 then floatField (parts.getD 34 "") else some 0).bind fun lo =>
    (if parts.length > 31 then floatField (parts.getD 31 "") else some 0).bind fun ch =>
    (if parts.length > 32 then floatField (parts.getD 32 "") else some 0).map fun chp =>
    { sid := sid
      symbol := symbol
      name := parts.getD 1 ""
      code := parts.getD 2 ""
      current_price := cp
      yesterday_close := yc
      open_price := op
      open_equ_prices := equ_open
      volume := vol
      volume_shares := vol * 100
      turnover := turn
      bid1_price := b1p
      bid1_volume := b1v
      ask1_price := a1p
      ask1_volume := a1v
      high := hi
      low := lo
      change := ch
      change_percent := chp
      timestamp := if parts.length > 30 then parts.getD 30 "" else ""
      last_update := last_update
      match_status := match_status_bang op equ_open }

/-- `re.search(r'"([^"]*)"', s)`: the first double-quoted segment, if a
closing quote exists. -/
def extractQuoted (s : String) : Option String :=
  match s.toList.dropWhile (fun c => c != '"') with
  | [] => none
  | _ :: rest =>
    if rest.any (fun c => c == '"') then
      some (String.mk (rest.takeWhile (fun c => c != '"')))
    else none

/-- `SZSEDataFetcher.get_realtime_data` parsing pipeline, as a function
of the raw response text (the network call is external): no-data marker
check, quoted-payload extraction, tilde split, positional decode.
`expected` carries the optional (sid, equ_open) pair; `last_update` is
the decode-time wall-clock string. -/
def get_realtime_data (responseText symbol : String)
    (expected : Option (String × Option ℚ)) (last_update : String) : Option StockDelim :=
  if pyStrip responseText == "" || containsSub (pyStrip responseText) "pv_none_match" then
    none
  else
    match extractQuoted (pyStrip responseText) with
    | none => none
    | some payload =>
      parseParts symbol
        (expected.getD ("SID_" ++ symbol, none)).1
        (expected.getD ("SID_" ++ symbol, none)).2
        last_update ((splitChar '~' payload.toList).map String.mk)

/-- Decoded report-endpoint quote (the `stock_data` dict of
`parse_current_data` / `parse_historical_data`). -/
structure StockData where
  symbol : String
  name : JValue
  open_price : ℚ
  data_type : String

/-- Python `float(value)` on a JSON value: numbers pass through, strings
are parsed after stripping surrounding whitespace, anything else raises
(modelled as `none`). -/
def pyFloat : JValue → Option ℚ
  | .num q => some q
  | .str s => parseFloat? (pyStrip s)
  | _ => none

/-- `SZSEOfficialDataFetcher.parse_current_data`: names fall back
`stockname` then `name` then the `N/A` placeholder; the open price is
`float(api_data.get("open", api_data.get("openPrice", 0)))` whose parse
failure raises into the `except` and yields `none`. -/
def parse_current_data (api_data : JValue) (symbol : String) : Option StockData :=
  match api_data with
  | .obj fs =>
    (match pyFloat (lookupDefault fs "open" (lookupDefault fs "openPrice" (.num 0))) with
     | some op =>
       some { symbol := symbol
              name := lookupDefault fs "stockname" (lookupDefault fs "name" (.str "N/A"))
              open_price := op
              data_type := "current" }
     | none => none)
  | _ => none

/-- Payload-container search shared by the dict branches of
`fetch_current_data` and `fetch_historical_data`: first truthy value
among the keys `data`, `result`, `rows`, `items`, `records`, otherwise
the first truthy value in iteration order. -/
def dictContent (fs : List (String × JValue)) : Option JValue :=
  match (["data", "result", "rows", "items", "records"]).findSome? (fun k =>
      match jlookup fs k with
      | some v => if truthy v then some v else none
      | none => none) with
  | some v => some v
  | none => fs.findSome? (fun kv => if truthy kv.2 then some kv.2 else none)

/-- `fetch_current_data` content selection followed by
`parse_current_data`, as a function of the decoded JSON body. -/
def fetch_current_decode (data : JValue) (symbol : String) : Option StockData :=
  match (match data with | .obj fs => dictContent fs | _ => none) with
  | some c => if truthy c then parse_current_data c symbol else none
  | none => none

/-- Stock-identifying key names probed by `fetch_historical_data`. -/
def stockKeys : List String := ["zqdm", "stockcode", "code", "zqjc", "stockname"]

/-- First scan of an array response in `fetch_historical_data`: skip
metadata wrappers, prefer elements with a `data` field or more than 3
fields (taking their `data` field if present, else the element), else
elements directly carrying a stock-identifying key. -/
def histScan1 : List JValue → Option JValue
  | [] => none
  | item :: rest =>
    match item with
    | .obj fs =>
      if hasKey fs "metadata" then histScan1 rest
      else if hasKey fs "data" || fs.length > 3 then
        some (lookupDefault fs "data" (.obj fs))
      else if stockKeys.any (fun k => hasKey fs k) then some (.obj fs)
      else histScan1 rest
    | _ => histScan1 rest

/-- Second scan: an element whose own `data` field is an array. -/
def histScan2 : List JValue → Option JValue
  | [] => none
  | item :: rest =>
    match item with
    | .obj fs =>
      (match jlookup fs "data" with
       | some (.arr xs) => some (.arr xs)
       | _ => histScan2 rest)
    | _ => histScan2 rest

/-- Final fallback of `fetch_historical_data`: for a multi-element array,
the first element after index 0 that is a dict with more than one field. -/
def histScan3 (xs : List JValue) : Option JValue :=
  if xs.length > 1 then
    (xs.drop 1).findSome? (fun item =>
      match item with
      | .obj fs => if fs.length > 1 then some (.obj fs) else none
      | _ => none)
  else none

/-- Shape normalization of `fetch_historical_data` (lines 224-282):
array responses go through the three scans in order, dict responses
through the shared container search. -/
def selectHistContent : JValue → Option JValue
  | .arr xs =>
    (match histScan1 xs with
     | some c => some c
     | none =>
       match histScan2 xs with
       | some c => some c
       | none => histScan3 xs)
  | .obj fs => dictContent fs
  | _ => none

/-- Ordered name-field fallback keys of `parse_historical_data`. -/
def nameKeys : List String := ["zqjc", "stockname", "name", "gsjc", "mc"]

/-- Ordered open-field fallback keys of `parse_historical_data`. -/
def openKeys : List String := ["ks", "kpjg", "open", "kaiPanJia"]

/-- `safe_float_conversion` of `parse_historical_data`: `None`, the empty
string and `"-"` give the default; otherwise commas are removed and
whitespace stripped before a float parse whose failure also gives the
default. -/
def safe_float_conversion (v : JValue) (default : ℚ) : ℚ :=
  match v with
  | .null => default
  | .str s =>
      if s == "" || s == "-" then default
      else (parseFloat? (pyStrip (stripCommas s))).getD default
  | .num q => q
  | .obj _ => default
  | .arr _ => default

/-- The key-probing loop of `get_field_value`: the first key whose value
is present, not `None`, and not a blank string. -/
def find_field_value (fs : List (String × JValue)) (names : List String) : Option JValue :=
  names.findSome? (fun k =>
    match jlookup fs k with
    | some .null => none
    | some (.str s) => if pyStrip s == "" then none else some (.str s)
    | some v => some v
    | none => none)

/-- Python `key in record` on a non-dict record: for a list it is element
membership (and a hit would raise `TypeError` at the subsequent string
indexing), for a string it is substring containment (same), and for a
number the containment test itself raises.  `probeOk r k` says probing
key `k` on record `r` neither hits nor raises. -/
def probeOk (r : JValue) (k : String) : Bool :=
  match r with
  | .arr xs => !(xs.any (fun x => match x with | .str s => s == k | _ => false))
  | .str s => !(containsSub s k)
  | _ => false

/-- `SZSEOfficialDataFetcher.parse_historical_data`: pick the record
(first element of a list, or the dict itself), reject falsy records,
then extract name and open through the ordered fallback keys with
permissive numeric coercion.  A non-dict record succeeds with defaults
only when no probed key hits it (any hit raises into the `except`). -/
def parse_historical_data (api_data : JValue) (symbol : String) (target_date : String) :
    Option StockData :=
  match (match api_data with
         | .arr [] => none
         | .arr (x :: _) => some x
         | .obj fs => some (.obj fs)
         | _ => none) with
  | none => none
  | some record =>
    if truthy record = false then none
    else
      match record with
      | .obj fs =>
          some { symbol := symbol
                 name := (find_field_value fs nameKeys).getD (.str "N/A")
                 open_price := (match find_field_value fs openKeys with
                                | some v => safe_float_conversion v 0
                                | none => 0)
                 data_type := "historical" }
      | r =>
          if (nameKeys ++ openKeys).all (fun k => probeOk r k) then
            some { symbol := symbol, name := .str "N/A", open_price := 0,
                   data_type := "historical" }
          else none

/-- `fetch_historical_data` shape normalization followed by
`parse_historical_data`, as a function of the decoded JSON body. -/
def fetch_historical_decode (data : JValue) (symbol target_date : String) : Option StockData :=
  match selectHistContent data with
  | some c => if truthy c then parse_historical_data c symbol target_date else none
  | none => none

/-- Match verdict assigned by `SZSEOfficialDataFetcher.get_stock_data`
(lines 443-450): 0.01 absolute tolerance on the open price. -/
def match_status_of (o : ℚ) (e : Option ℚ) : String :=
  match e with
  | some ev => if |o - ev| ≤ (1 / 100 : ℚ) then "MATCHED" else "NOT MATCHED"
  | none => "NO EXPECTED PRICE"

/-- Terminal per-symbol result dict of `get_stock_data`.  `market_status`
is populated only by `create_market_closed_result`. -/
structure ResultRec where
  symbol : String
  name : JValue
  open_price : ℚ
  expected_open : Option ℚ
  match_status : String
  data_type : String
  market_status : Option String

/-- `SZSEOfficialDataFetcher.create_market_closed_result`. -/
def create_market_closed_result (symbol : String) (expected_open : Option ℚ)
    (reason : String) : ResultRec :=
  { symbol := symbol
    name := .str "N/A"
    open_price := 0
    expected_open := expected_open
    match_status := "MARKET CLOSED"
    data_type := reason
    market_status := some reason }

/-- The enrichment `get_stock_data` applies to a fetched quote:
expected price attached and the tolerance verdict computed. -/
def attachMatch (sd : StockData) (e : Option ℚ) : ResultRec :=
  { symbol := sd.symbol
    name := sd.name
    open_price := sd.open_price
    expected_open := e
    match_status := match_status_of sd.open_price e
    data_type := sd.data_type
    market_status := none }

/-- `SZSEOfficialDataFetcher.get_stock_data`, with the two network
fetch-and-decode paths abstracted as oracles (`fetchCur`, `fetchHist`);
the second component counts the network fetches issued. -/
def get_stock_data (c : Clock) (fetchCur : Option StockData)
    (fetchHist : String → Option StockData) (symbol : String)
    (expected_open : Option ℚ) (target_date : Option String) :
    Option ResultRec × Nat :=
  match get_date_mode c target_date with
  | (.invalid, _) => (none, 0)
  | (.market_closed_weekend, _) =>
      (some (create_market_closed_result symbol expected_open "Weekend - Market Closed"), 0)
  | (.market_closed_now, _) =>
      (some (create_market_closed_result symbol expected_open "Outside Trading Hours"), 0)
  | (.current, _) =>
      ((match fetchCur with
        | none => none
        | some sd => some (attachMatch sd expected_open)), 1)
  | (.historical, ds) =>
      ((match fetchHist ds with
        | none => none
        | some sd => some (attachMatch sd expected_open)), 1)

theorem date_lt_irrefl (a : Date) : ¬ Date.lt a a := by
  unfold Date.lt
  omega

theorem date_lt_asymm (a b : Date) : Date.lt a b → ¬ Date.lt b a := by
  unfold Date.lt
  omega

theorem date_lt_ne (a b : Date) : Date.lt a b → a ≠ b := by
  intro h heq
  subst heq
  exact date_lt_irrefl a h

theorem jlookup_eq_none (fs : List (String × JValue)) (k : String)
    (h : hasKey fs k = false) : jlookup fs k = none := by
  have hfind : List.find? (fun kv => kv.1 == k) fs = none := by
    rw [List.find?_eq_none]
    intro x hx hxk
    have ha : hasKey fs k = true := by
      unfold hasKey
      exact List.any_eq_true.mpr ⟨x, hx, hxk⟩
    rw [h] at ha
    exact Bool.false_ne_true ha
  unfold jlookup
  rw [hfind]
  rfl

theorem optBind_none {α β : Type} (f : α → Option β) : Option.bind none f = none := rfl

theorem optBind_some {α β : Type} (a : α) (f : α → Option β) :
    Option.bind (some a) f = f a := rfl

theorem match_status_of_ne_closed (o : ℚ) (e : Option ℚ) :
    match_status_of o e ≠ "MARKET CLOSED" := by
  cases e with
  | none =>
    simp only [match_status_of]
    decide
  | some ev =>
    simp only [match_status_of]
    split <;> decide

/-- A fixed sample clock for witnesses: local and Beijing date Monday
2025-06-02, Beijing time 10:00:00 (inside the morning session). -/
def sampleClock : Clock := ⟨⟨2025, 6, 2⟩, ⟨2025, 6, 2⟩, 36000⟩

/-- C1: for a well-formed target date, `get_date_mode` returns `invalid`
for dates strictly after today, the live-session check result
(`current` or `market_closed_now`) for today, and for past dates
`market_closed_weekend` on Saturdays/Sundays and `historical` otherwise;
with no target date it returns the live-session check result carrying
today's formatted date. -/
theorem get_date_mode_session_resolution (c : Clock) (d : String) (dt : Date)
    (h : parseDate d = some dt) :
    (Date.lt c.today dt → get_date_mode c (some d) = (.invalid, d)) ∧
    (dt = c.today → get_date_mode c (some d) =
      ((if is_market_open_now c then DateMode.current else .market_closed_now), d)) ∧
    (Date.lt dt c.today → get_date_mode c (some d) =
      ((if 5 ≤ weekday dt then DateMode.market_closed_weekend else .historical), d)) ∧
    get_date_mode c none =
      ((if is_market_open_now c then DateMode.current else .market_closed_now),
        formatDate c.today) := by
  refine ⟨?_, ?_, ?_, ?_⟩
  · intro hf
    simp only [get_date_mode, h]
    rw [if_pos hf]
  · intro he
    simp only [get_date_mode, h]
    rw [if_neg (by subst he; exact date_lt_irrefl c.today), if_pos he]
    cases hm : is_market_open_now c <;> simp [hm]
  · intro hp
    simp only [get_date_mode, h]
    rw [if_neg (date_lt_asymm _ _ hp), if_neg (date_lt_ne _ _ hp)]
    have hw : is_weekend d = decide (5 ≤ weekday dt) := by
      simp [is_weekend, h]
    rw [hw]
    by_cases h5 : 5 ≤ weekday dt
    · simp [h5]
    · simp [h5]
  · simp only [get_date_mode]
    cases hm : is_market_open_now c <;> simp [hm]

/-- C1 witness: under the sample clock (today 2025-06-02), the future
date 2026-01-01 resolves to the invalid mode. -/
theorem get_date_mode_session_resolution_witness :
    get_date_mode sampleClock (some "2026-01-01") = (.invalid, "2026-01-01") :=
  (get_date_mode_session_resolution sampleClock "2026-01-01" ⟨2026, 1, 1⟩ rfl).1 (by decide)

/-- C2: in the two market-closed modes the orchestrator issues no network
fetch and returns exactly the synthesized market-closed result (quote
fields absent, verdict `MARKET CLOSED`, `market_status` carrying the
reason); conversely any returned result carries the `MARKET CLOSED`
verdict exactly when the resolved mode was one of those two, for every
expected price. -/
theorem get_stock_data_market_closed_iff (c : Clock) (fc : Option StockData)
    (fh : String → Option StockData) (symbol : String) (e : Option ℚ)
    (target : Option String) (mode : DateMode) (ds : String)
    (hm : get_date_mode c target = (mode, ds)) :
    ((mode = .market_closed_weekend ∨ mode = .market_closed_now) →
      (get_stock_data c fc fh symbol e target).2 = 0 ∧
      ∃ reason, (get_stock_data c fc fh symbol e target).1 =
        some (create_market_closed_result symbol e reason)) ∧
    (∀ r, (get_stock_data c fc fh symbol e target).1 = some r →
      (r.match_status = "MARKET CLOSED" ↔
        (mode = .market_closed_weekend ∨ mode = .market_closed_now))) := by
  constructor
  · rintro (rfl | rfl)
    · exact ⟨by simp [get_stock_data, hm], "Weekend - Market Closed",
        by simp [get_stock_data, hm]⟩
    · exact ⟨by simp [get_stock_data, hm], "Outside Trading Hours",
        by simp [get_stock_data, hm]⟩
  · intro r hr
    cases mode with
    | invalid => simp [get_stock_data, hm] at hr
    | market_closed_weekend =>
      simp only [get_stock_data, hm, Option.some.injEq] at hr
      subst hr
      simp [create_market_closed_result]
    | market_closed_now =>
      simp only [get_stock_data, hm, Option.some.injEq] at hr
      subst hr
      simp [create_market_closed_result]
    | current =>
      cases fc with
      | none => simp [get_stock_data, hm] at hr
      | some sd =>
        simp only [get_stock_data, hm, Option.some.injEq] at hr
        subst hr
        exact iff_of_false (by simp [attachMatch, match_status_of_ne_closed]) (by simp)
    | historical =>
      cases hfh : fh ds with
      | none => simp [get_stock_data, hm, hfh] at hr
      | some sd =>
        simp only [get_stock_data, hm, hfh, Option.some.injEq] at hr
        subst hr
        exact iff_of_false (by simp [attachMatch, match_status_of_ne_closed]) (by simp)

/-- C2 witness: under the sample clock, the past Saturday 2025-05-31
resolves to `market_closed_weekend`; the orchestrator issues no fetch and
returns the synthesized market-closed result. -/
theorem get_stock_data_market_closed_iff_witness :
    (get_stock_data sampleClock none (fun _ => none) "000001" (some 8) (some "2025-05-31")).2 = 0 ∧
    ∃ reason, (get_stock_data sampleClock none (fun _ => none) "000001" (some 8) (some "2025-05-31")).1 =
      some (create_market_closed_result "000001" (some 8) reason) :=
  (get_stock_data_market_closed_iff sampleClock none (fun _ => none) "000001" (some 8)
    (some "2025-05-31") .market_closed_weekend "2025-05-31" rfl).1 (Or.inl rfl)

/-- C3: with an expected price present, the verdict is the match verdict
exactly when the open price is within the 0.01 absolute tolerance and the
not-matched verdict otherwise (in both the report orchestrator and the
delimited feed client); with no expected price the verdict is
`NO EXPECTED PRICE`; in particular open 8.50 against expected 8.505 is
matched and against expected 8.52 is not. -/
theorem match_status_tolerance_spec :
    (∀ o e : ℚ,
      (match_status_of o (some e) = "MATCHED" ↔ |o - e| ≤ 1 / 100) ∧
      (match_status_of o (some e) = "NOT MATCHED" ↔ ¬|o - e| ≤ 1 / 100) ∧
      (match_status_bang o (some e) = "MATCHED!" ↔ |o - e| ≤ 1 / 100)) ∧
    (∀ o : ℚ, match_status_of o none = "NO EXPECTED PRICE" ∧
      match_status_bang o none = "NO EXPECTED PRICE") ∧
    match_status_of 8.5 (some 8.505) = "MATCHED" ∧
    match_status_of 8.5 (some 8.52) = "NOT MATCHED" := by
  refine ⟨fun o e => ⟨?_, ?_, ?_⟩, fun o => ⟨rfl, rfl⟩, ?_, ?_⟩
  · simp only [match_status_of]
    split
    next h => exact iff_of_true rfl h
    next h => exact iff_of_false (by decide) h
  · simp only [match_status_of]
    split
    next h => exact iff_of_false (by decide) (not_not_intro h)
    next h => exact iff_of_true rfl h
  · simp only [match_status_bang]
    split
    next h => exact iff_of_true rfl h
    next h => exact iff_of_false (by decide) h
  · show (if |(8.5 : ℚ) - 8.505| ≤ 1 / 100 then "MATCHED" else "NOT MATCHED") = "MATCHED"
    rw [if_pos (by rw [abs_le]; constructor <;> norm_num)]
  · show (if |(8.5 : ℚ) - 8.52| ≤ 1 / 100 then "MATCHED" else "NOT MATCHED") = "NOT MATCHED"
    rw [if_neg (by rw [abs_le]; norm_num)]

/-- C10: the reconciliation verdict does not special-case an open price
of 0 (the structured decoder's missing-field default): whenever the
expected price differs from 0 by more than the tolerance the verdict is
`NOT MATCHED`, exactly as for any genuinely traded price at the same
distance; and a historical record with no recognizable open key indeed
decodes to open 0. -/
theorem reconcile_zero_open_no_special_case :
    (∀ e : ℚ, 1 / 100 < |0 - e| → match_status_of 0 (some e) = "NOT MATCHED") ∧
    (∀ o e : ℚ, |o - e| = |0 - e| →
      match_status_of o (some e) = match_status_of 0 (some e)) ∧
    (∀ fs sym td, truthy (.obj fs) = true → find_field_value fs openKeys = none →
      (parse_historical_data (.obj fs) sym td).map (fun sd => sd.open_price) = some 0) := by
  refine ⟨?_, ?_, ?_⟩
  · intro e he
    show (if |(0 : ℚ) - e| ≤ 1 / 100 then "MATCHED" else "NOT MATCHED") = "NOT MATCHED"
    rw [if_neg (not_le.mpr he)]
  · intro o e h
    show (if |o - e| ≤ 1 / 100 then ("MATCHED" : String) else "NOT MATCHED")
      = (if |(0 : ℚ) - e| ≤ 1 / 100 then "MATCHED" else "NOT MATCHED")
    rw [h]
  · intro fs sym td ht hf
    simp [parse_historical_data, ht, hf]

/-- C10 witness: a defaulted open of 0 against expected price 8 (distance
above tolerance) yields the not-matched verdict. -/
theorem reconcile_zero_open_no_special_case_witness :
    match_status_of 0 (some 8) = "NOT MATCHED" :=
  reconcile_zero_open_no_special_case.1 8 (by rw [lt_abs]; norm_num)

/-- C6 counterexample: the unparseable date string "not-a-date" does not
make `is_weekend` fail; the `except ValueError` branch returns the
ordinary value `false`. -/
theorem is_weekend_malformed_cex :
    parseDate "not-a-date" = none ∧ is_weekend "not-a-date" = false :=
  ⟨rfl, rfl⟩

/-- C6 amended: for unparseable input `is_weekend` returns `false`
rather than failing; for every parseable date it returns `true` exactly
when the weekday is Saturday or Sunday. -/
theorem is_weekend_spec (s : String) :
    (parseDate s = none → is_weekend s = false) ∧
    (∀ dt : Date, parseDate s = some dt →
      (is_weekend s = true ↔ (weekday dt = 5 ∨ weekday dt = 6))) := by
  constructor
  · intro h
    simp [is_weekend, h]
  · intro dt h
    have h7 : weekday dt < 7 := Nat.mod_lt _ (by norm_num)
    simp only [is_weekend, h, decide_eq_true_eq]
    omega

/-- C6 witness: 2025-05-31 parses and is a Saturday, so `is_weekend`
returns `true` on it. -/
theorem is_weekend_spec_witness : is_weekend "2025-05-31" = true :=
  ((is_weekend_spec "2025-05-31").2 ⟨2025, 5, 31⟩ rfl).mpr (Or.inl (by decide))

/-- C7 counterexample: a malformed target date yields the very same
`invalid` mode as a well-formed future date, not a distinct error. -/
theorem get_date_mode_malformed_cex :
    parseDate "2025-99-99" = none ∧
    get_date_mode sampleClock (some "2025-99-99") = (.invalid, "2025-99-99") ∧
    get_date_mode sampleClock (some "2025-12-31") = (.invalid, "2025-12-31") :=
  ⟨rfl, rfl, rfl⟩

/-- C7 amended: a present target date that fails to parse as YYYY-MM-DD
makes `get_date_mode` return the `invalid` mode (echoing the raw string),
the same mode it returns for well-formed future dates. -/
theorem get_date_mode_malformed_invalid (c : Clock) (s : String)
    (h : parseDate s = none) :
    get_date_mode c (some s) = (.invalid, s) := by
  simp [get_date_mode, h]

/-- C7 witness: the malformed date "99/99/2025" resolves to the invalid
mode under the sample clock. -/
theorem get_date_mode_malformed_invalid_witness :
    get_date_mode sampleClock (some "99/99/2025") = (.invalid, "99/99/2025") :=
  get_date_mode_malformed_invalid sampleClock "99/99/2025" rfl

/-- C4 counterexample: decoding the object binding key result to a record
with name Ping An and openPrice "1,650.00" in current mode yields no
quote at all: `float("1,650.00")` raises, the exception handler returns
`None`, and no comma stripping takes place in `parse_current_data`. -/
theorem parse_current_comma_open_cex :
    fetch_current_decode
      (.obj [("result", .obj [("name", .str "Ping An"), ("openPrice", .str "1,650.00")])])
      "600519" = none :=
  rfl

/-- C4 amended: permissive numeric coercion (thousands-separator and
whitespace stripping, defaulting on a still-failing parse) applies only
to the historical-report decode via `safe_float_conversion`; the
current-mode decode parses the selected open value strictly and aborts
(yields no result) when the parse fails, as it does on "1,650.00". -/
theorem numeric_coercion_policy_split :
    (∀ (fs : List (String × JValue)) (sym s : String),
      lookupDefault fs "open" (lookupDefault fs "openPrice" (.num 0)) = .str s →
      parseFloat? (pyStrip s) = none →
      parse_current_data (.obj fs) sym = none) ∧
    safe_float_conversion (.str "1,650.00") 0 = 1650 ∧
    safe_float_conversion (.str " 12.50 ") 0 = 12.5 ∧
    safe_float_conversion (.str "abc") 0 = 0 ∧
    (fetch_historical_decode
        (.obj [("data", .obj [("zqjc", .str "Ping An"), ("ks", .str "1,650.00")])])
        "600519" "2024-01-02").map (fun sd => sd.open_price) = some 1650 := by
  refine ⟨?_, ?_, ?_, ?_, ?_⟩
  · intro fs sym s hsel hpar
    simp [parse_current_data, hsel, pyFloat, hpar]
  · show ((1650 : ℚ) + 0 / 10 ^ 2) = 1650
    norm_num
  · show ((12 : ℚ) + 50 / 10 ^ 2) = 12.5
    norm_num
  · rfl
  · show some ((1650 : ℚ) + 0 / 10 ^ 2) = some 1650
    norm_num

/-- C4 amended witness: a current-mode record whose open field holds the
unparseable string "x" decodes to no result. -/
theorem numeric_coercion_policy_split_witness :
    parse_current_data (.obj [("open", .str "x")]) "000001" = none :=
  numeric_coercion_policy_split.1 [("open", .str "x")] "000001" "x" rfl rfl

/-- C5 counterexample: a 30-field payload whose field 3 (current price,
not the open field) is the unparseable non-empty string "x" makes the
whole delimited decode fail, instead of decoding that field to zero and
succeeding as the claim states. -/
theorem delimited_nonopen_field_fatal_cex :
    parseParts "000001" "SID001" none "t" ((List.replicate 30 "").set 3 "x") = none :=
  rfl

/-- The quote decoded from a 30-field record of empty strings: every
numeric field is zero, text fields are empty. -/
def allEmptyDelim : StockDelim :=
  { sid := "SID001", symbol := "000001", name := "", code := "",
    current_price := 0, yesterday_close := 0, open_price := 0, open_equ_prices := none,
    volume := 0, volume_shares := 0, turnover := 0, bid1_price := 0, bid1_volume := 0,
    ask1_price := 0, ask1_volume := 0, high := 0, low := 0, change := 0,
    change_percent := 0, timestamp := "", last_update := "t",
    match_status := "NO EXPECTED PRICE" }

set_option maxHeartbeats 2000000 in
/-- C5 amended: in a payload of at least 30 fields, an empty-string field
decodes to its type's zero value; but a numeric-parse failure on ANY
consumed numeric field — the open field at position 5 or e.g. the current
price at position 3 alike — is fatal: the decode fails with no result.
An all-empty record still decodes, with zeroed numeric fields. -/
theorem delimited_field_error_policy :
    floatField "" = some 0 ∧ intField "" = some 0 ∧
    (∀ (parts : List String) (sym sid : String) (e : Option ℚ) (lu : String),
      ¬parts.length < 30 → floatField (parts.getD 5 "") = none →
      parseParts sym sid e lu parts = none) ∧
    (∀ (parts : List String) (sym sid : String) (e : Option ℚ) (lu : String),
      ¬parts.length < 30 → floatField (parts.getD 3 "") = none →
      parseParts sym sid e lu parts = none) ∧
    (∃ sd, parseParts "000001" "SID001" none "t" (List.replicate 30 "") = some sd ∧
      sd.current_price = 0 ∧ sd.open_price = 0 ∧ sd.volume = 0) := by
  refine ⟨rfl, rfl, ?_, ?_, ?_⟩
  · intro parts sym sid e lu hlen h5
    simp only [parseParts, if_neg hlen]
    cases h3 : floatField (parts.getD 3 "") with
    | none => simp only [optBind_none]
    | some cp =>
      simp only [optBind_some]
      cases h4 : floatField (parts.getD 4 "") with
      | none => simp only [optBind_none]
      | some yc =>
        simp only [optBind_some]
        rw [h5]
        simp only [optBind_none]
  · intro parts sym sid e lu hlen h3
    simp only [parseParts, if_neg hlen]
    rw [h3]
    simp only [optBind_none]
  · exact ⟨allEmptyDelim, rfl, rfl, rfl, rfl⟩

/-- C5 amended witness: a 30-field record with the unparseable string "y"
in the open position decodes to no result. -/
theorem delimited_field_error_policy_witness :
    parseParts "000001" "SID001" none "t" ((List.replicate 30 "").set 5 "y") = none :=
  delimited_field_error_policy.2.2.1 ((List.replicate 30 "").set 5 "y") "000001" "SID001"
    none "t" (by decide) rfl

/-- C9: whenever the quoted payload splits into fewer than 30
tilde-separated fields, the delimited decode fails with no result,
regardless of the fields' content. -/
theorem delimited_short_record_fails (resp sym lu : String)
    (expected : Option (String × Option ℚ)) (payload : String)
    (hq : extractQuoted (pyStrip resp) = some payload)
    (hlen : (splitChar '~' payload.toList).length < 30) :
    get_realtime_data resp sym expected lu = none := by
  unfold get_realtime_data
  by_cases h0 : (pyStrip resp == "" || containsSub (pyStrip resp) "pv_none_match") = true
  · rw [if_pos h0]
  · rw [if_neg h0, hq]
    have hl : ((splitChar '~' payload.toList).map String.mk).length < 30 := by
      rw [List.length_map]
      exact hlen
    show parseParts sym (expected.getD ("SID_" ++ sym, none)).1
      (expected.getD ("SID_" ++ sym, none)).2 lu
      ((splitChar '~' payload.toList).map String.mk) = none
    unfold parseParts
    rw [if_pos hl]

/-- C9 witness: a response whose quoted payload has only three fields
decodes to no result. -/
theorem delimited_short_record_fails_witness :
    get_realtime_data "v_sz000001=\"a~b~c\"" "000001" none "t" = none :=
  delimited_short_record_fails "v_sz000001=\"a~b~c\"" "000001" "t" none "a~b~c"
    rfl (by decide)

/-- C8: for a two-element array whose first element is a metadata wrapper
(has a metadata key) and whose second element is not a wrapper, has no
data field, and directly carries one of the stock-identifying keys, the
historical decoder skips the wrapper, selects the stock element, and
extracts name and open through the ordered fallback key lists. -/
theorem historical_array_metadata_skip (w s : List (String × JValue)) (sym td : String)
    (hw : hasKey w "metadata" = true)
    (hm : hasKey s "metadata" = false)
    (hd : hasKey s "data" = false)
    (hk : stockKeys.any (fun k => hasKey s k) = true) :
    fetch_historical_decode (.arr [.obj w, .obj s]) sym td =
      some { symbol := sym
             name := (find_field_value s nameKeys).getD (.str "N/A")
             open_price := (match find_field_value s openKeys with
                            | some v => safe_float_conversion v 0
                            | none => 0)
             data_type := "historical" } := by
  have hne : s.isEmpty = false := by
    cases s with
    | nil => simp [stockKeys, hasKey] at hk
    | cons a l => rfl
  have hsel : selectHistContent (.arr [.obj w, .obj s]) = some (.obj s) := by
    simp only [selectHistContent, histScan1, hw, if_true, hm, Bool.false_eq_true, if_false,
      hd, Bool.false_or]
    by_cases h3 : s.length > 3
    · simp [h3, lookupDefault, jlookup_eq_none s "data" hd]
    · simp [h3, hk]
  have ht : truthy (.obj s) = true := by
    simp [truthy, hne]
  simp only [fetch_historical_decode, hsel]
  rw [if_pos ht]
  simp [parse_historical_data, ht]

/-- C8 witness: decoding the array of a metadata wrapper followed by the
record with zqjc "Vanke" and ks "8.50" yields a quote named Vanke with
open price 8.50. -/
theorem historical_array_metadata_skip_witness :
    (fetch_historical_decode
        (.arr [.obj [("metadata", .obj [("cols", .str "c")])],
               .obj [("zqjc", .str "Vanke"), ("ks", .str "8.50")]])
        "000002" "2024-01-05").map (fun sd => sd.name) = some (.str "Vanke") ∧
    (fetch_historical_decode
        (.arr [.obj [("metadata", .obj [("cols", .str "c")])],
               .obj [("zqjc", .str "Vanke"), ("ks", .str "8.50")]])
        "000002" "2024-01-05").map (fun sd => sd.open_price) = some 8.5 := by
  have h := historical_array_metadata_skip [("metadata", .obj [("cols", .str "c")])]
    [("zqjc", .str "Vanke"), ("ks", .str "8.50")] "000002" "2024-01-05" rfl rfl rfl rfl
  rw [h]
  refine ⟨rfl, ?_⟩
  show some ((8 : ℚ) + 50 / 10 ^ 2) = some 8.5
  norm_num
